import Mathlib

/-!
# Verification of the ctoz task-orchestration core

Shallow embedding of the Go sources of the ctoz migration tool
(`backend/internal/models`, `backend/internal/storage`,
`backend/internal/services` and `backend/internal/handlers`), together
with theorems about the task pipeline, the per-item status derivation,
the import-status cache, the WebSocket broadcast hub and the in-memory
task store.

Conventions of the embedding:
* Go `time.Time` values are modelled as `Nat` instants passed in
  explicitly (the Go code obtains them via `time.Now()`).
* Go maps are modelled as association lists (`List (String × α)`)
  with `lookupA` / `insertA` / `eraseA`.
* `fmt.Sprintf`-formatted log and error strings are modelled by
  concatenating the same components in the same order.
* Fallible Go functions returning `error` are modelled with `Except`
  or with an `Option` error component.
-/

namespace Ctoz

/-! ## Models (`backend/internal/models`, `task.go`) -/

/-- Task status constants (`TaskStatusPending` …).  The Go source defines
exactly these four; there is no cancelled constant. -/
def taskStatusPending : String := "pending"

def taskStatusRunning : String := "running"

def taskStatusCompleted : String := "completed"

def taskStatusFailed : String := "failed"

/-- The complete list of task status constants declared in the models
package (`const` block lines 142-147). -/
def taskStatusConstants : List String :=
  [taskStatusPending, taskStatusRunning, taskStatusCompleted, taskStatusFailed]

def appStatusSuccess : String := "success"

def appStatusFailed : String := "failed"

def appStatusSkipped : String := "skipped"

def logLevelInfo : String := "info"

def logLevelWarning : String := "warning"

def logLevelError : String := "error"

/-- `models.SystemConnection`. -/
structure SystemConnection where
  id : String
  host : String
  port : Int
  username : String
  password : String
  token : String
  sysType : String
  verified : Bool
deriving Repr, DecidableEq

/-- `models.AppImportStatus`. -/
structure AppImportStatus where
  appName : String
  hasAppData : Bool
  appDataStatus : String
  composeStatus : String
  overallStatus : String
  errorMessage : String
  downloadURL : String
deriving Repr, DecidableEq

/-- `models.ImportSummary`.  The Go fields are `int`; they are only ever
initialised to `0` and incremented, so `Nat` is faithful. -/
structure ImportSummary where
  totalApps : Nat
  successApps : Nat
  failedApps : Nat
deriving Repr, DecidableEq

/-- `models.MigrationLog`. -/
structure MigrationLog where
  level : String
  message : String
  timestamp : Nat
deriving Repr, DecidableEq

/-- The task `Result` payload, as written by the in-process code paths the
claims are about: `SetTaskResult` is always called with a
`map[string]interface{}` holding an `"apps"` key (a
`[]models.AppImportStatus`) and a `"summary"` key (a
`models.ImportSummary`); the additional `"completion_time"` and
`"status"` keys written on the success path carry no data any claim
reads and are not modelled. -/
structure TaskResult where
  apps : List AppImportStatus
  summary : ImportSummary
deriving Repr, DecidableEq

/-- `models.MigrationTask` (logs live in the store's `logs` map, mirroring
`MemoryStore`; the embedded `Logs` slice of the Go struct is unused by the
claims). -/
structure MigrationTask where
  id : String
  taskType : String
  status : String
  progress : Int
  source : Option SystemConnection
  target : Option SystemConnection
  result : Option TaskResult
  createdAt : Nat
  updatedAt : Nat
deriving Repr, DecidableEq

/-! ## Association-list operations standing in for Go maps -/

def lookupA (l : List (String × α)) (k : String) : Option α :=
  match l with
  | [] => none
  | (k', v) :: rest => if k' = k then some v else lookupA rest k

def eraseA (l : List (String × α)) (k : String) : List (String × α) :=
  match l with
  | [] => []
  | (k', v) :: rest => if k' = k then eraseA rest k else (k', v) :: eraseA rest k

def insertA (l : List (String × α)) (k : String) (v : α) : List (String × α) :=
  (k, v) :: eraseA l k

/-! ## `calculateOverallStatus` and `calculateImportSummary`
(`migration_service.go`) -/

/-- `MigrationService.calculateOverallStatus`: with AppData both
sub-statuses must be `success`, otherwise the overall status is the
compose status. -/
def calculateOverallStatus (a : AppImportStatus) : String :=
  if a.hasAppData then
    if a.appDataStatus = appStatusSuccess ∧ a.composeStatus = appStatusSuccess then
      appStatusSuccess
    else
      appStatusFailed
  else
    a.composeStatus

/-- `MigrationService.calculateImportSummary`: starts from
`{TotalApps: len(appStatuses)}` and, per app, increments `SuccessApps`
when the overall status is `success` and `FailedApps` otherwise. -/
def calculateImportSummary (appStatuses : List AppImportStatus) : ImportSummary :=
  appStatuses.foldl
    (fun summary app =>
      if app.overallStatus = appStatusSuccess then
        { summary with successApps := summary.successApps + 1 }
      else
        { summary with failedApps := summary.failedApps + 1 })
    { totalApps := appStatuses.length, successApps := 0, failedApps := 0 }

/-! ## `storage.MemoryStore` -/

/-- Store-level errors (`models.ErrTaskNotFound`). -/
inductive StoreError where
  | taskNotFound
deriving Repr, DecidableEq

/-- `storage.MemoryStore`: in-memory maps for tasks, connections, logs and
download instructions (the latter two maps are carried for fidelity but no
claim reads them beyond the logs map). -/
structure MemoryStore where
  tasks : List (String × MigrationTask)
  connections : List (String × SystemConnection)
  logs : List (String × List MigrationLog)
deriving Repr, DecidableEq

/-- `MemoryStore.SaveTask`. -/
def MemoryStore.saveTask (ms : MemoryStore) (task : MigrationTask) : MemoryStore :=
  { ms with tasks := insertA ms.tasks task.id task }

/-- `MemoryStore.GetTask`: `ErrTaskNotFound` when the id is absent. -/
def MemoryStore.getTask (ms : MemoryStore) (taskID : String) :
    Except StoreError MigrationTask :=
  match lookupA ms.tasks taskID with
  | some task => .ok task
  | none => .error .taskNotFound

/-- `MemoryStore.DeleteTask`: errors with `ErrTaskNotFound` when the task
does not exist; otherwise removes the task and its logs. -/
def MemoryStore.deleteTask (ms : MemoryStore) (taskID : String) :
    Except StoreError MemoryStore :=
  match lookupA ms.tasks taskID with
  | none => .error .taskNotFound
  | some _ =>
    .ok { ms with tasks := eraseA ms.tasks taskID, logs := eraseA ms.logs taskID }

/-- `MemoryStore.UpdateTaskStatus`: unconditionally replaces the current
status of an existing task and refreshes `UpdatedAt`. -/
def MemoryStore.updateTaskStatus (ms : MemoryStore) (taskID status : String)
    (now : Nat) : Except StoreError MemoryStore :=
  match lookupA ms.tasks taskID with
  | none => .error .taskNotFound
  | some task =>
    let updated := { task with status := status, updatedAt := now }
    .ok { ms with tasks := insertA ms.tasks taskID updated }

/-- `MemoryStore.UpdateTaskProgress`. -/
def MemoryStore.updateTaskProgress (ms : MemoryStore) (taskID : String)
    (progress : Int) (now : Nat) : Except StoreError MemoryStore :=
  match lookupA ms.tasks taskID with
  | none => .error .taskNotFound
  | some task =>
    let updated := { task with progress := progress, updatedAt := now }
    .ok { ms with tasks := insertA ms.tasks taskID updated }

/-- `MemoryStore.SetTaskResult`. -/
def MemoryStore.setTaskResult (ms : MemoryStore) (taskID : String)
    (result : TaskResult) (now : Nat) : Except StoreError MemoryStore :=
  match lookupA ms.tasks taskID with
  | none => .error .taskNotFound
  | some task =>
    let updated := { task with result := some result, updatedAt := now }
    .ok { ms with tasks := insertA ms.tasks taskID updated }

/-- `MemoryStore.AddLog`: appends to the per-task log slice. -/
def MemoryStore.addLog (ms : MemoryStore) (taskID : String) (entry : MigrationLog) :
    MemoryStore :=
  let existing := (lookupA ms.logs taskID).getD []
  { ms with logs := insertA ms.logs taskID (existing ++ [entry]) }

/-- `MigrationService.saveAppImportStatuses`: recomputes the summary with
`calculateImportSummary` and stores `{"apps": appStatuses, "summary": summary}`
as the task result.  The Go caller discards the `SetTaskResult` error, so a
missing task leaves the store unchanged. -/
def saveAppImportStatuses (ms : MemoryStore) (taskID : String)
    (appStatuses : List AppImportStatus) (now : Nat) : MemoryStore :=
  match ms.setTaskResult taskID
      { apps := appStatuses, summary := calculateImportSummary appStatuses } now with
  | .ok ms' => ms'
  | .error _ => ms

/-! ## `Handler.GetTaskStatus` and `Handler.DeleteTask`
(`handlers.go`) -/

/-- The scrubbing applied by `Handler.GetTaskStatus` to a copy of a
connection record: `Password` and `Token` are blanked. -/
def scrubConnection (c : SystemConnection) : SystemConnection :=
  { c with password := "", token := "" }

/-- `Handler.GetTaskStatus` (success path): fetches the task, copies it,
blanks `Password`/`Token` on copies of `Source` and `Target`, and responds
with the copy.  The Go handler never writes to the store; the second
component of the result is the store after the request. -/
def handlerGetTaskStatus (ms : MemoryStore) (taskID : String) :
    Option MigrationTask × MemoryStore :=
  match ms.getTask taskID with
  | .error _ => (none, ms)
  | .ok task =>
    let taskCopy :=
      { task with
          source := task.source.map scrubConnection
          target := task.target.map scrubConnection }
    (some taskCopy, ms)

/-- HTTP-level outcome of `Handler.DeleteTask`. -/
inductive DeleteTaskResponse where
  | ok
  | notFound
  | runningForbidden
  | internalError
deriving Repr, DecidableEq

/-- `Handler.DeleteTask`: 404 when `GetTask` fails, 400 when the task is
`running`, otherwise delegates to the store delete. -/
def handlerDeleteTask (ms : MemoryStore) (taskID : String) :
    DeleteTaskResponse × MemoryStore :=
  match ms.getTask taskID with
  | .error _ => (.notFound, ms)
  | .ok task =>
    if task.status = taskStatusRunning then
      (.runningForbidden, ms)
    else
      match ms.deleteTask taskID with
      | .ok ms' => (.ok, ms')
      | .error _ => (.internalError, ms)

/-! ## The pipeline worker (`executeOnlineMigration`, `executeDataExport`,
`executeDataImport` in `migration_service.go`)

Each worker runs an ordered list of named steps through
`TaskService.ExecuteStep` / `ExecuteStepWithProgress`.  A step body either
returns `nil`, returns an error, or panics.  The worker code after each
step call is one of two fixed shapes:

* critical step: `if err != nil { hasCriticalError = true; return }`;
* non-critical step: `if err != nil { AddTaskLog(Warning, ...) }` and
  execution continues with the next step.

The deferred epilogue then decides the terminal status: a recovered panic
or `hasCriticalError` yields `failed`, otherwise `completed`. -/

/-- Outcome of invoking one step body. -/
inductive StepOutcome where
  | ok : StepOutcome
  | err : String → StepOutcome
  | panicked : String → StepOutcome
deriving Repr, DecidableEq

/-- One step of a flow: its log name and whether the worker treats its
error as critical. -/
structure FlowStep where
  name : String
  critical : Bool
deriving Repr, DecidableEq

/-- Structured log entry appended by the worker's own classification code
(the per-step info/error logs emitted inside `ExecuteStep` itself are not
needed by any claim).  `detail` carries the error text interpolated by the
Go `fmt.Sprintf` call. -/
structure WorkerLog where
  level : String
  step : String
  detail : String
deriving Repr, DecidableEq

/-- Result of running the step list: the names of the steps whose bodies
were invoked, the warning logs appended by the non-critical-error
branches, the `hasCriticalError` boolean, and whether a panic escaped to
the deferred recover. -/
structure StepsRun where
  executed : List String
  warnings : List WorkerLog
  hasCriticalError : Bool
  panicked : Bool
deriving Repr, DecidableEq

/-- Run the step list the way every worker's straight-line body does,
with `env` giving each step body's outcome.  A panic aborts the body
immediately; a critical error sets `hasCriticalError` and returns; a
non-critical error appends a warning log and continues. -/
def runSteps (steps : List FlowStep) (env : String → StepOutcome) : StepsRun :=
  match steps with
  | [] => { executed := [], warnings := [], hasCriticalError := false, panicked := false }
  | s :: rest =>
    match env s.name with
    | .panicked _ =>
      { executed := [s.name], warnings := [], hasCriticalError := false, panicked := true }
    | .err m =>
      if s.critical then
        { executed := [s.name], warnings := [], hasCriticalError := true, panicked := false }
      else
        let r := runSteps rest env
        { executed := s.name :: r.executed
          warnings := { level := logLevelWarning, step := s.name, detail := m } :: r.warnings
          hasCriticalError := r.hasCriticalError
          panicked := r.panicked }
    | .ok =>
      let r := runSteps rest env
      { r with executed := s.name :: r.executed }

/-- The deferred epilogue that every worker installs: a recovered panic or
a recorded critical error yields `failed`, otherwise `completed`. -/
def workerFinalStatus (panicked hasCriticalError : Bool) : String :=
  if panicked then taskStatusFailed
  else if hasCriticalError then taskStatusFailed
  else taskStatusCompleted

/-- The log entry appended by the deferred epilogue alongside the final
status write: an error log for a panic or a critical failure, an info log
on completion. -/
def workerFinalLog (panicked hasCriticalError : Bool) (panicMsg : String) : WorkerLog :=
  if panicked then { level := logLevelError, step := "", detail := panicMsg }
  else if hasCriticalError then
    { level := logLevelError, step := "", detail := "Critical error occurred; task failed" }
  else { level := logLevelInfo, step := "", detail := "completed" }

/-- A whole worker run: the status writes it performs on the task (in
order), the classification/epilogue logs, and the step trace. -/
structure WorkerRun where
  statusWrites : List String
  logs : List WorkerLog
  run : StepsRun
deriving Repr, DecidableEq

/-- Execute a worker: first `UpdateTaskStatus(running)`, then the step
list, then the deferred epilogue writes exactly one terminal status. -/
def runWorker (steps : List FlowStep) (env : String → StepOutcome)
    (panicMsg : String) : WorkerRun :=
  let r := runSteps steps env
  { statusWrites := [taskStatusRunning, workerFinalStatus r.panicked r.hasCriticalError]
    logs := r.warnings ++ [workerFinalLog r.panicked r.hasCriticalError panicMsg]
    run := r }

/-- Step list of `executeOnlineMigration` (names and criticality read off
the worker body). -/
def onlineMigrationSteps : List FlowStep :=
  [ { name := "Test source system connection", critical := true }
  , { name := "Test target system connection", critical := true }
  , { name := "Download and process source data", critical := true }
  , { name := "Scan app configuration", critical := false }
  , { name := "Merge AppData directory", critical := false }
  , { name := "Import application configuration", critical := false }
  , { name := "Cleanup local temporary files", critical := false } ]

/-- Step list of `executeDataExport`. -/
def dataExportSteps : List FlowStep :=
  [ { name := "Test source system connection", critical := true }
  , { name := "Export system data", critical := true } ]

/-- Step list of `executeDataImport`. -/
def dataImportSteps : List FlowStep :=
  [ { name := "Test target system connection", critical := true }
  , { name := "Parse import file", critical := true }
  , { name := "Scan app configuration", critical := false }
  , { name := "Merge AppData directory", critical := false }
  , { name := "Import application configuration", critical := false }
  , { name := "Cleanup local temporary files", critical := false } ]

/-- Claim-side condition, read off the claim text rather than the worker:
some executed step either panicked, or returned an error while being
critical. -/
def faultOccurs (steps : List FlowStep) (env : String → StepOutcome) : Bool :=
  match steps with
  | [] => false
  | s :: rest =>
    match env s.name with
    | .panicked _ => true
    | .err _ => if s.critical then true else faultOccurs rest env
    | .ok => faultOccurs rest env

/-- A step neither panics nor fails critically under `env`, so the worker
body proceeds past it. -/
def stepContinues (env : String → StepOutcome) (s : FlowStep) : Bool :=
  match env s.name with
  | .ok => true
  | .err _ => !s.critical
  | .panicked _ => false

/-! ## The per-item loops inside the merge and compose steps

`executeDataImport` (and identically `executeOnlineMigration`) processes
items inside two step bodies:

* the "Merge AppData directory" step walks `appStatuses` and, for every
  item with `HasAppData`, writes `AppDataStatus` (and on failure
  `ErrorMessage`), then immediately calls `saveAppImportStatuses` on the
  whole slice — without touching `OverallStatus`;
* the "Import application configuration" step walks the compose files by
  app name, writes `ComposeStatus` (and appends to `ErrorMessage` on
  failure), recomputes `OverallStatus := calculateOverallStatus(...)` for
  the updated item, then immediately calls `saveAppImportStatuses`.

`upload` and `importCompose` give the outcome of
`uploadAppDataToZimaOS` / `importComposeToZimaOS` per app name
(`none` = success, `some e` = the error text). -/

/-- The merge-loop body's update of a single item with `HasAppData`. -/
def mergeUpdateApp (upload : String → Option String) (a : AppImportStatus) :
    AppImportStatus :=
  match upload a.appName with
  | some e =>
    { a with appDataStatus := appStatusFailed
             errorMessage := "AppData merge failed: " ++ e }
  | none => { a with appDataStatus := appStatusSuccess }

/-- The merge loop over `appStatuses`: items without `HasAppData` are
skipped (`continue`); after every updated item the whole current slice is
saved.  Returns the final slice and the sequence of saved snapshots.
`done` holds the already-walked prefix. -/
def runMergeLoop (upload : String → Option String) (done todo : List AppImportStatus) :
    List AppImportStatus × List (List AppImportStatus) :=
  match todo with
  | [] => (done, [])
  | a :: rest =>
    if a.hasAppData then
      let a' := mergeUpdateApp upload a
      let snap := done ++ a' :: rest
      let r := runMergeLoop upload (done ++ [a']) rest
      (r.1, snap :: r.2)
    else
      runMergeLoop upload (done ++ [a]) rest

/-- The compose-loop body's update of the matching item: write the compose
sub-status (appending to `ErrorMessage` on failure) and recompute the
overall status from the two sub-statuses. -/
def composeUpdateApp (importErr : Option String) (a : AppImportStatus) :
    AppImportStatus :=
  let a1 :=
    match importErr with
    | some e =>
      { a with composeStatus := appStatusFailed
               errorMessage :=
                 if a.errorMessage = "" then "Compose import failed: " ++ e
                 else a.errorMessage ++ "; Compose import failed: " ++ e }
    | none => { a with composeStatus := appStatusSuccess }
  { a1 with overallStatus := calculateOverallStatus a1 }

/-- Update the first list element satisfying `p` (the Go loop breaks after
the first `AppName` match). -/
def updateFirst (p : α → Bool) (f : α → α) : List α → List α
  | [] => []
  | a :: rest => if p a then f a :: rest else a :: updateFirst p f rest

/-- The compose loop over the compose-file names: each iteration updates
the item whose `AppName` matches, then saves the whole slice.  Returns the
final slice and the saved snapshots. -/
def runComposeLoop (importCompose : String → Option String) (names : List String)
    (apps : List AppImportStatus) : List AppImportStatus × List (List AppImportStatus) :=
  match names with
  | [] => (apps, [])
  | n :: rest =>
    let apps' := updateFirst (fun a => a.appName = n) (composeUpdateApp (importCompose n)) apps
    let r := runComposeLoop importCompose rest apps'
    (r.1, apps' :: r.2)

/-- The item state initialised by the "Scan app configuration" step for an
app found in the extracted archive. -/
def scanInitApp (appName : String) (hasAppData : Bool) : AppImportStatus :=
  { appName := appName, hasAppData := hasAppData
    appDataStatus := appStatusSkipped, composeStatus := "pending"
    overallStatus := "pending", errorMessage := "", downloadURL := "" }

/-! ## The import-status cache and `Handler.GetImportStatus`
(`handlers.go`) -/

/-- `models.ImportStatusResponse`. -/
structure ImportStatusResponse where
  taskID : String
  status : String
  progress : Int
  apps : List AppImportStatus
  summary : ImportSummary
deriving Repr, DecidableEq

/-- The cache fields of `Handler`: `importStatusCache`, `cacheExpiry` and
`cacheTTL` (5 minutes, here an abstract `Nat` duration). -/
structure HandlerCache where
  importStatusCache : List (String × ImportStatusResponse)
  cacheExpiry : List (String × Nat)
  cacheTTL : Nat
deriving Repr, DecidableEq

/-- `Handler.getCachedImportStatus`: a hit requires a cache entry and an
unexpired expiry entry; an entry present but expired (or without an
expiry record) is deleted on the way out. -/
def getCachedImportStatus (h : HandlerCache) (taskID : String) (now : Nat) :
    Option ImportStatusResponse × HandlerCache :=
  match lookupA h.importStatusCache taskID with
  | some cached =>
    match lookupA h.cacheExpiry taskID with
    | some expiry =>
      if now < expiry then (some cached, h)
      else
        (none, { h with importStatusCache := eraseA h.importStatusCache taskID
                        cacheExpiry := eraseA h.cacheExpiry taskID })
    | none =>
      (none, { h with importStatusCache := eraseA h.importStatusCache taskID
                      cacheExpiry := eraseA h.cacheExpiry taskID })
  | none => (none, h)

/-- `Handler.cacheImportStatus`: stores the response and stamps the expiry
`cacheTTL` after `now`. -/
def cacheImportStatus (h : HandlerCache) (taskID : String)
    (response : ImportStatusResponse) (now : Nat) : HandlerCache :=
  { h with importStatusCache := insertA h.importStatusCache taskID response
           cacheExpiry := insertA h.cacheExpiry taskID (now + h.cacheTTL) }

/-- The view `GetImportStatus` computes from the live task record.  In
process, `task.Result["apps"]` is a `[]models.AppImportStatus`, so the
direct type assertion succeeds and every app gets a `DownloadURL`;
`task.Result["summary"]` is a `models.ImportSummary` struct, so the
handler's `summaryData.(map[string]interface\x7b\x7d)` assertion fails and
`summary` keeps its zero value. -/
def computeImportView (task : MigrationTask) : ImportStatusResponse :=
  let apps :=
    match task.result with
    | some r => r.apps
    | none => []
  let apps := apps.map fun a =>
    { a with downloadURL := "/api/tasks/" ++ task.id ++ "/download/" ++ a.appName }
  { taskID := task.id, status := task.status, progress := task.progress
    apps := apps, summary := { totalApps := 0, successApps := 0, failedApps := 0 } }

/-- `Handler.GetImportStatus` after the task has been fetched and its type
checked: the cache is consulted only when the task is not `running`, and
the freshly computed view is cached only when the task is not `running`. -/
def getImportStatus (h : HandlerCache) (task : MigrationTask) (now : Nat) :
    ImportStatusResponse × HandlerCache :=
  if task.status ≠ taskStatusRunning then
    match getCachedImportStatus h task.id now with
    | (some cached, h') => (cached, h')
    | (none, h') =>
      let response := computeImportView task
      (response, cacheImportStatus h' task.id response now)
  else
    (computeImportView task, h)

/-! ## The WebSocket hub (`websocket.Manager`, `handlers.go`) -/

/-- A broadcast payload; the hub never inspects it, so its fields are
irrelevant to the claims and `models.WSMessage` is modelled by its `Type`
and `Timestamp` fields. -/
structure WSMessage where
  msgType : String
  timestamp : Nat
deriving Repr, DecidableEq

/-- `websocket.Client`: `id` stands for the Go pointer identity, `send`
for the contents of the buffered `Send` channel, `sendCap` for its
capacity (`HandleWebSocket` always allocates 256), `closed` for whether
the hub has closed the channel. -/
structure Client where
  id : Nat
  send : List WSMessage
  sendCap : Nat
  closed : Bool
deriving Repr, DecidableEq

/-- The hub's per-task observer registry (`Manager.Clients`). -/
structure Manager where
  clients : List (String × List Client)
deriving Repr, DecidableEq

/-- One delivery attempt of the broadcast loop: the non-blocking channel
send succeeds exactly when the buffer has room; a full buffer means the
client is dropped (`none`). -/
def deliverOne (msg : WSMessage) (c : Client) : Option Client :=
  if c.send.length < c.sendCap then some { c with send := c.send ++ [msg] }
  else none

/-- The `case message := <-m.Broadcast` branch of `Manager.Run`: with no
registered clients the event is dropped and the state unchanged; otherwise
each client either gets the message enqueued or — when its buffer is
full — is removed from the set and has its channel closed.  When the last
client of a task is dropped the task's entry is removed.  Returns the new
registry and the dropped clients (with their channels closed).  The
function returns no error to the producer. -/
def broadcast (m : Manager) (taskID : String) (msg : WSMessage) :
    Manager × List Client :=
  match lookupA m.clients taskID with
  | none => (m, [])
  | some cs =>
    if cs.length = 0 then (m, [])
    else
      let kept := cs.filterMap (deliverOne msg)
      let dropped := (cs.filter (fun c => !(c.send.length < c.sendCap))).map
        (fun c => { c with closed := true })
      if kept.length = 0 then
        ({ clients := eraseA m.clients taskID }, dropped)
      else
        ({ clients := insertA m.clients taskID kept }, dropped)

end Ctoz

namespace Ctoz

/-! ## Theorems about the derived status -/

/-- Characterisation of the fold in `calculateImportSummary`. -/
theorem calculateImportSummary_foldl (apps : List AppImportStatus) (s : ImportSummary) :
    apps.foldl
      (fun summary app =>
        if app.overallStatus = appStatusSuccess then
          { summary with successApps := summary.successApps + 1 }
        else
          { summary with failedApps := summary.failedApps + 1 })
      s =
    { totalApps := s.totalApps
      successApps := s.successApps + apps.countP (fun a => a.overallStatus = appStatusSuccess)
      failedApps := s.failedApps + apps.countP (fun a => ¬ a.overallStatus = appStatusSuccess) } := by
  induction apps generalizing s with
  | nil => simp [List.countP, List.countP.go]
  | cons a rest ih =>
    simp only [List.foldl_cons, List.countP_cons]
    by_cases h : a.overallStatus = appStatusSuccess
    · simp [h, ih, Nat.add_comm, Nat.add_assoc, Nat.add_left_comm]
    · simp [h, ih, Nat.add_comm, Nat.add_assoc, Nat.add_left_comm]

theorem calculateImportSummary_eq (apps : List AppImportStatus) :
    calculateImportSummary apps =
      { totalApps := apps.length
        successApps := apps.countP (fun a => a.overallStatus = appStatusSuccess)
        failedApps := apps.countP (fun a => ¬ a.overallStatus = appStatusSuccess) } := by
  simp [calculateImportSummary, calculateImportSummary_foldl]

/-- C3: for every `AppImportStatus`, if it has no AppData its overall
status (as computed by `calculateOverallStatus`) equals its compose
sub-status; if it has AppData, the overall status is `success` exactly
when both sub-statuses are `success`, and `failed` in every other
combination. -/
theorem overallStatus_derivation (a : AppImportStatus) :
    (a.hasAppData = false → calculateOverallStatus a = a.composeStatus) ∧
    (a.hasAppData = true →
      (calculateOverallStatus a = appStatusSuccess ↔
        (a.appDataStatus = appStatusSuccess ∧ a.composeStatus = appStatusSuccess)) ∧
      (¬ (a.appDataStatus = appStatusSuccess ∧ a.composeStatus = appStatusSuccess) →
        calculateOverallStatus a = appStatusFailed)) := by
  refine ⟨fun h => ?_, fun h => ⟨?_, fun hnot => ?_⟩⟩
  · simp [calculateOverallStatus, h]
  · by_cases hb : a.appDataStatus = appStatusSuccess ∧ a.composeStatus = appStatusSuccess
    · simp [calculateOverallStatus, h, hb]
    · simp only [calculateOverallStatus, h, if_true, if_neg hb]
      constructor
      · intro heq
        exact absurd heq (by simp [appStatusFailed, appStatusSuccess])
      · intro hb'
        exact absurd hb' hb
  · simp [calculateOverallStatus, h, hnot]

/-- Witness for `overallStatus_derivation` at a concrete record with
AppData whose data merge failed: overall status is `failed`. -/
theorem overallStatus_derivation_witness :
    calculateOverallStatus
      { appName := "jellyfin", hasAppData := true, appDataStatus := appStatusFailed
        composeStatus := appStatusSuccess, overallStatus := "pending"
        errorMessage := "", downloadURL := "" } = appStatusFailed :=
  (overallStatus_derivation
    { appName := "jellyfin", hasAppData := true, appDataStatus := appStatusFailed
      composeStatus := appStatusSuccess, overallStatus := "pending"
      errorMessage := "", downloadURL := "" }).2 rfl |>.2 (by decide)

/-! ## Lemmas about the step runner -/

/-- A fault (panic or critical error) in the trace is exactly what sets
one of the two failure flags. -/
theorem runSteps_flags_eq_faultOccurs (steps : List FlowStep) (env : String → StepOutcome) :
    ((runSteps steps env).panicked || (runSteps steps env).hasCriticalError) =
      faultOccurs steps env := by
  induction steps with
  | nil => rfl
  | cons s rest ih =>
    simp only [runSteps, faultOccurs]
    cases h : env s.name with
    | ok => simpa using ih
    | err m =>
      by_cases hc : s.critical
      · simp [hc]
      · simpa [hc] using ih
    | panicked m => simp

/-- The warning logs appended while walking a step prefix every step of
which lets execution continue. -/
def warningsOf (env : String → StepOutcome) (steps : List FlowStep) : List WorkerLog :=
  steps.filterMap fun t =>
    match env t.name with
    | .err m => if t.critical then none else
        some { level := logLevelWarning, step := t.name, detail := m }
    | _ => none

/-- Walking a prefix whose steps all continue merely accumulates executed
names and warnings; flags and the tail behaviour are those of the tail. -/
theorem runSteps_append_continues (env : String → StepOutcome)
    (pre rest : List FlowStep) (h : ∀ t ∈ pre, stepContinues env t = true) :
    runSteps (pre ++ rest) env =
      { executed := pre.map (·.name) ++ (runSteps rest env).executed
        warnings := warningsOf env pre ++ (runSteps rest env).warnings
        hasCriticalError := (runSteps rest env).hasCriticalError
        panicked := (runSteps rest env).panicked } := by
  induction pre with
  | nil => simp [warningsOf]
  | cons t pre' ih =>
    have ht : stepContinues env t = true := h t (by simp)
    have h' : ∀ u ∈ pre', stepContinues env u = true := fun u hu => h u (by simp [hu])
    simp only [List.cons_append, runSteps]
    cases he : env t.name with
    | ok =>
      simp [ih h', warningsOf, List.filterMap_cons, he]
    | err m =>
      have hc : t.critical = false := by
        simpa [stepContinues, he] using ht
      simp [hc, ih h', warningsOf, List.filterMap_cons, he]
    | panicked m =>
      exact absurd ht (by simp [stepContinues, he])

/-- A fully-continuing step list runs every step, records no fault, and
its warnings are `warningsOf`. -/
theorem runSteps_all_continue (env : String → StepOutcome) (steps : List FlowStep)
    (h : ∀ t ∈ steps, stepContinues env t = true) :
    runSteps steps env =
      { executed := steps.map (·.name), warnings := warningsOf env steps
        hasCriticalError := false, panicked := false } := by
  have := runSteps_append_continues env steps [] h
  simpa [runSteps] using this

/-- A critical step that errs after a fully-continuing prefix stops the
trace: only the prefix and the failing step execute, and the critical
flag is set. -/
theorem runSteps_critical_abort (env : String → StepOutcome)
    (pre post : List FlowStep) (s : FlowStep) (m : String)
    (hpre : ∀ t ∈ pre, stepContinues env t = true)
    (hcrit : s.critical = true) (herr : env s.name = .err m) :
    runSteps (pre ++ s :: post) env =
      { executed := pre.map (·.name) ++ [s.name], warnings := warningsOf env pre
        hasCriticalError := true, panicked := false } := by
  have hs : runSteps (s :: post) env =
      { executed := [s.name], warnings := [], hasCriticalError := true, panicked := false } := by
    simp [runSteps, herr, hcrit]
  rw [runSteps_append_continues env pre (s :: post) hpre, hs]
  simp

/-- Membership of the warning entry for a non-critical erring step. -/
theorem warning_mem_warningsOf (env : String → StepOutcome) (steps : List FlowStep)
    (t : FlowStep) (m : String) (hmem : t ∈ steps) (herr : env t.name = .err m)
    (hnc : t.critical = false) :
    { level := logLevelWarning, step := t.name, detail := m } ∈ warningsOf env steps := by
  unfold warningsOf
  refine List.mem_filterMap.2 ⟨t, hmem, ?_⟩
  simp [herr, hnc]

/-! ## C1: worker terminal status -/

/-- C1: for each of the three pipeline workers (online migration, data
export, data import), the final status written by the deferred epilogue is
`failed` exactly when a critical step erred or a panic was recovered
(`faultOccurs`), is `completed` otherwise, and a recovered panic results
in a `failed` status write plus an error log rather than a propagated
fault. -/
theorem worker_terminal_status (env : String → StepOutcome) (panicMsg : String)
    (steps : List FlowStep)
    (_hflow : steps ∈ [onlineMigrationSteps, dataExportSteps, dataImportSteps]) :
    ((runWorker steps env panicMsg).statusWrites =
        [taskStatusRunning, taskStatusFailed] ↔ faultOccurs steps env = true) ∧
    ((runWorker steps env panicMsg).statusWrites =
        [taskStatusRunning, taskStatusCompleted] ↔ faultOccurs steps env = false) ∧
    ((runSteps steps env).panicked = true →
      (runWorker steps env panicMsg).statusWrites =
          [taskStatusRunning, taskStatusFailed] ∧
      { level := logLevelError, step := "", detail := panicMsg }
        ∈ (runWorker steps env panicMsg).logs) := by
  have hflags := runSteps_flags_eq_faultOccurs steps env
  set r := runSteps steps env with hr
  have hfs : workerFinalStatus r.panicked r.hasCriticalError = taskStatusFailed ↔
      (r.panicked || r.hasCriticalError) = true := by
    unfold workerFinalStatus
    cases hp : r.panicked <;> cases hc : r.hasCriticalError <;>
      simp [taskStatusFailed, taskStatusCompleted]
  have hcs : workerFinalStatus r.panicked r.hasCriticalError = taskStatusCompleted ↔
      (r.panicked || r.hasCriticalError) = false := by
    unfold workerFinalStatus
    cases hp : r.panicked <;> cases hc : r.hasCriticalError <;>
      simp [taskStatusFailed, taskStatusCompleted]
  refine ⟨?_, ?_, ?_⟩
  · constructor
    · intro hw
      have : workerFinalStatus r.panicked r.hasCriticalError = taskStatusFailed := by
        have := congrArg (fun l => l.getLast?) hw
        simpa [runWorker] using this
      rw [← hflags]
      exact hfs.1 this
    · intro hfault
      have : workerFinalStatus r.panicked r.hasCriticalError = taskStatusFailed :=
        hfs.2 (hflags.trans hfault)
      simp [runWorker, ← hr, this]
  · constructor
    · intro hw
      have : workerFinalStatus r.panicked r.hasCriticalError = taskStatusCompleted := by
        have := congrArg (fun l => l.getLast?) hw
        simpa [runWorker] using this
      rw [← hflags]
      exact hcs.1 this
    · intro hfault
      have : workerFinalStatus r.panicked r.hasCriticalError = taskStatusCompleted :=
        hcs.2 (hflags.trans hfault)
      simp [runWorker, ← hr, this]
  · intro hp
    have hfail : workerFinalStatus r.panicked r.hasCriticalError = taskStatusFailed :=
      hfs.2 (by simp [hp])
    constructor
    · simp [runWorker, ← hr, hfail]
    · simp [runWorker, ← hr, workerFinalLog, hp]

/-- Witness for `worker_terminal_status`: the data-import flow with a
panicking "Parse import file" step ends `failed` and logs the panic. -/
theorem worker_terminal_status_witness :
    (runWorker dataImportSteps
        (fun n => if n = "Parse import file" then .panicked "boom" else .ok)
        "Panic occurred during import: boom").statusWrites =
      [taskStatusRunning, taskStatusFailed] ∧
    { level := logLevelError, step := "", detail := "Panic occurred during import: boom" }
      ∈ (runWorker dataImportSteps
          (fun n => if n = "Parse import file" then .panicked "boom" else .ok)
          "Panic occurred during import: boom").logs :=
  (worker_terminal_status
    (fun n => if n = "Parse import file" then .panicked "boom" else .ok)
    "Panic occurred during import: boom" dataImportSteps (by simp)).2.2 (by decide)

/-! ## C2: critical-vs-non-critical step classification -/

/-- C2: in each flow, (i) the connectivity-check and initial
bulk-acquisition/parse steps are exactly the critical ones, scan, merge,
compose import and cleanup are non-critical; (ii) an error from a
critical step (after a prefix that let execution continue) stops all
remaining steps and the task ends `failed`; (iii) when every step lets
execution continue (no critical error, no panic), all steps execute,
every non-critical error yields a warning log, and the task ends
`completed`. -/
theorem step_error_classification (env : String → StepOutcome) (panicMsg : String)
    (steps : List FlowStep)
    (hflow : steps ∈ [onlineMigrationSteps, dataExportSteps, dataImportSteps]) :
    (∀ t ∈ steps, t.critical = true ↔
      t.name ∈ ["Test source system connection", "Test target system connection",
        "Download and process source data", "Parse import file", "Export system data"]) ∧
    (∀ pre s post, steps = pre ++ s :: post → s.critical = true →
      (∀ t ∈ pre, stepContinues env t = true) → (∀ m, env s.name = .err m →
        (runWorker steps env panicMsg).run.executed = pre.map (·.name) ++ [s.name] ∧
        (runWorker steps env panicMsg).statusWrites =
          [taskStatusRunning, taskStatusFailed])) ∧
    ((∀ t ∈ steps, stepContinues env t = true) →
      (runWorker steps env panicMsg).run.executed = steps.map (·.name) ∧
      (runWorker steps env panicMsg).statusWrites =
        [taskStatusRunning, taskStatusCompleted] ∧
      (∀ t ∈ steps, t.critical = false → ∀ m, env t.name = .err m →
        { level := logLevelWarning, step := t.name, detail := m }
          ∈ (runWorker steps env panicMsg).logs)) := by
  refine ⟨?_, ?_, ?_⟩
  · have h3 : steps = onlineMigrationSteps ∨ steps = dataExportSteps ∨
        steps = dataImportSteps := by simpa using hflow
    rcases h3 with h | h | h <;>
      (subst h; intro t ht; fin_cases ht <;>
        simp [onlineMigrationSteps, dataExportSteps, dataImportSteps])
  · intro pre s post hsplit hcrit hpre m herr
    subst hsplit
    have habort := runSteps_critical_abort env pre post s m hpre hcrit herr
    constructor
    · simp [runWorker, habort]
    · simp [runWorker, habort, workerFinalStatus]
  · intro hcont
    have hall := runSteps_all_continue env steps hcont
    refine ⟨by simp [runWorker, hall], by simp [runWorker, hall, workerFinalStatus], ?_⟩
    intro t ht hnc m herr
    have : { level := logLevelWarning, step := t.name, detail := m } ∈ warningsOf env steps :=
      warning_mem_warningsOf env steps t m ht herr hnc
    simp [runWorker, hall, this]

/-- Witness for `step_error_classification` on the data-import flow: a
connection-test error aborts immediately with `failed`, and in a separate
run a scan error leaves all six steps executing, logs a warning, and the
task completes. -/
theorem step_error_classification_witness :
    ((runWorker dataImportSteps (fun _ => .err "dial tcp: refused") "p").run.executed =
        ["Test target system connection"] ∧
      (runWorker dataImportSteps (fun _ => .err "dial tcp: refused") "p").statusWrites =
        [taskStatusRunning, taskStatusFailed]) ∧
    ((runWorker dataImportSteps
        (fun n => if n = "Scan app configuration" then .err "no apps dir" else .ok)
        "p").run.executed = dataImportSteps.map (·.name) ∧
      (runWorker dataImportSteps
        (fun n => if n = "Scan app configuration" then .err "no apps dir" else .ok)
        "p").statusWrites = [taskStatusRunning, taskStatusCompleted] ∧
      { level := logLevelWarning, step := "Scan app configuration", detail := "no apps dir" }
        ∈ (runWorker dataImportSteps
            (fun n => if n = "Scan app configuration" then .err "no apps dir" else .ok)
            "p").logs) := by
  constructor
  · exact (step_error_classification (fun _ => .err "dial tcp: refused") "p"
      dataImportSteps (by simp)).2.1
      [] { name := "Test target system connection", critical := true }
      (dataImportSteps.tail) (by decide) rfl (by decide) "dial tcp: refused" rfl
  · have h := (step_error_classification
      (fun n => if n = "Scan app configuration" then .err "no apps dir" else .ok) "p"
      dataImportSteps (by simp)).2.2 (by decide)
    exact ⟨h.1, h.2.1, h.2.2
      { name := "Scan app configuration", critical := false } (by decide) rfl
      "no apps dir" (by decide)⟩

/-! ## Association-list lemmas -/

theorem lookupA_insertA_self (l : List (String × α)) (k : String) (v : α) :
    lookupA (insertA l k v) k = some v := by
  simp [insertA, lookupA]

theorem eraseA_lookupA_self (l : List (String × α)) (k : String) :
    lookupA (eraseA l k) k = none := by
  induction l with
  | nil => rfl
  | cons kv rest ih =>
    obtain ⟨k', v⟩ := kv
    by_cases h : k' = k
    · simpa [eraseA, h] using ih
    · simpa [eraseA, lookupA, h] using ih

/-! ## C4: recomputation and persistence after sub-status writes -/

/-- C4 counterexample: in the merge loop, after the AppData-merge failure
of the single scanned app is written and the list persisted, the saved
snapshot still carries `OverallStatus = "pending"` although the derivation
rule yields `failed` — the overall status was not recomputed at this
write. -/
theorem merge_write_stale_overall_counterexample :
    (runMergeLoop (fun _ => some "disk full") [] [scanInitApp "nextcloud" true]).2 =
      [[{ appName := "nextcloud", hasAppData := true, appDataStatus := appStatusFailed
          composeStatus := "pending", overallStatus := "pending"
          errorMessage := "AppData merge failed: disk full", downloadURL := "" }]] ∧
    calculateOverallStatus
      { appName := "nextcloud", hasAppData := true, appDataStatus := appStatusFailed
        composeStatus := "pending", overallStatus := "pending"
        errorMessage := "AppData merge failed: disk full", downloadURL := "" } =
      appStatusFailed ∧
    ("pending" : String) ≠ appStatusFailed := by
  refine ⟨?_, by decide, by decide⟩
  decide

/-- C4 amended: a compose-import write immediately recomputes the updated
item's overall status by the derivation rule and every compose iteration
persists a snapshot, and every AppData-merge iteration also persists a
snapshot immediately — but a merge write leaves `OverallStatus` exactly as
it was (not recomputed until the item's compose import). -/
theorem substatus_write_recompute_and_persist (e : Option String)
    (u importCompose : String → Option String) (a : AppImportStatus)
    (names : List String) (apps done todo : List AppImportStatus) :
    (composeUpdateApp e a).overallStatus =
      calculateOverallStatus (composeUpdateApp e a) ∧
    (mergeUpdateApp u a).overallStatus = a.overallStatus ∧
    (runComposeLoop importCompose names apps).2.length = names.length ∧
    (runMergeLoop u done todo).2.length = todo.countP (·.hasAppData) := by
  refine ⟨?_, ?_, ?_, ?_⟩
  · cases e <;> simp [composeUpdateApp, calculateOverallStatus]
  · unfold mergeUpdateApp
    cases u a.appName <;> simp
  · induction names generalizing apps with
    | nil => rfl
    | cons n rest ih => simp [runComposeLoop, ih]
  · induction todo generalizing done with
    | nil => rfl
    | cons a' rest ih =>
      by_cases h : a'.hasAppData
      · simp [runMergeLoop, h, ih, List.countP_cons]
      · simp [runMergeLoop, h, ih, List.countP_cons]

/-! ## C5: summary recomputation -/

/-- C5 counterexample: for a persisted list holding one still-pending item
the recomputed summary reports `failed = 1`, although no item's overall
status is `failed` — `FailedApps` counts every non-`success` item, not the
failed ones. -/
theorem summary_counts_pending_as_failed_counterexample :
    calculateImportSummary [scanInitApp "nextcloud" false] =
      { totalApps := 1, successApps := 0, failedApps := 1 } ∧
    (scanInitApp "nextcloud" false).overallStatus ≠ appStatusFailed ∧
    List.countP (fun a => a.overallStatus = appStatusFailed)
      [scanInitApp "nextcloud" false] = 0 := by
  refine ⟨by decide, by decide, by decide⟩

/-- C5 amended: every save of the item list recomputes the summary in full
from the current list — total is the length, success counts the items with
overall status `success`, and failed counts every item whose overall
status is *not* `success` (not only the `failed` ones) — and
`saveAppImportStatuses` stores exactly this recomputed summary together
with the current list, for mid-run saves and the final save alike. -/
theorem summary_recomputed_on_save (apps : List AppImportStatus)
    (ms : MemoryStore) (taskID : String) (task : MigrationTask) (now : Nat)
    (h : lookupA ms.tasks taskID = some task) :
    calculateImportSummary apps =
      { totalApps := apps.length
        successApps := apps.countP (fun a => a.overallStatus = appStatusSuccess)
        failedApps := apps.countP (fun a => ¬ a.overallStatus = appStatusSuccess) } ∧
    lookupA (saveAppImportStatuses ms taskID apps now).tasks taskID =
      some { task with
              result := some { apps := apps, summary := calculateImportSummary apps }
              updatedAt := now } := by
  refine ⟨calculateImportSummary_eq apps, ?_⟩
  simp only [saveAppImportStatuses, MemoryStore.setTaskResult, h]
  exact lookupA_insertA_self _ _ _

/-- Witness for `summary_recomputed_on_save`: saving one successful and
one failed item against a concrete stored task yields the fully
recomputed summary `{2, 1, 1}` in the task's result. -/
theorem summary_recomputed_on_save_witness :
    calculateImportSummary
      [{ scanInitApp "a" false with
         composeStatus := appStatusSuccess, overallStatus := appStatusSuccess },
       { scanInitApp "b" false with
         composeStatus := appStatusFailed, overallStatus := appStatusFailed }] =
      { totalApps := 2, successApps := 1, failedApps := 1 } ∧
    lookupA (saveAppImportStatuses
        { tasks := [("t", { id := "t", taskType := "import", status := taskStatusRunning
                            progress := 40, source := none, target := none, result := none
                            createdAt := 0, updatedAt := 3 })]
          connections := [], logs := [] } "t"
        [{ scanInitApp "a" false with
           composeStatus := appStatusSuccess, overallStatus := appStatusSuccess },
         { scanInitApp "b" false with
           composeStatus := appStatusFailed, overallStatus := appStatusFailed }] 7).tasks "t" =
      some { id := "t", taskType := "import", status := taskStatusRunning
             progress := 40, source := none, target := none
             result := some
               { apps := [{ scanInitApp "a" false with
                            composeStatus := appStatusSuccess, overallStatus := appStatusSuccess },
                          { scanInitApp "b" false with
                            composeStatus := appStatusFailed, overallStatus := appStatusFailed }]
                 summary := { totalApps := 2, successApps := 1, failedApps := 1 } }
             createdAt := 0, updatedAt := 7 } := by
  have h := summary_recomputed_on_save
    [{ scanInitApp "a" false with
       composeStatus := appStatusSuccess, overallStatus := appStatusSuccess },
     { scanInitApp "b" false with
       composeStatus := appStatusFailed, overallStatus := appStatusFailed }]
    { tasks := [("t", { id := "t", taskType := "import", status := taskStatusRunning
                        progress := 40, source := none, target := none, result := none
                        createdAt := 0, updatedAt := 3 })]
      connections := [], logs := [] } "t"
    { id := "t", taskType := "import", status := taskStatusRunning
      progress := 40, source := none, target := none, result := none
      createdAt := 0, updatedAt := 3 } 7 (by decide)
  refine ⟨by decide, ?_⟩
  rw [h.2]
  decide

/-! ## C6: cancellation -/

/-- C6 counterexample: the models package declares no cancelled status —
`"cancelled"` is not among the task status constants — and the store's
status writer has no cancellation guard: even for a task record whose
status field already reads `"cancelled"`, the worker's terminal write
replaces it with `completed`. -/
theorem cancelled_not_reachable_counterexample :
    ("cancelled" ∉ taskStatusConstants) ∧
    MemoryStore.updateTaskStatus
      { tasks := [("t", { id := "t", taskType := "online", status := "cancelled"
                          progress := 50, source := none, target := none, result := none
                          createdAt := 0, updatedAt := 1 })]
        connections := [], logs := [] } "t" taskStatusCompleted 9 =
      .ok { tasks := [("t", { id := "t", taskType := "online", status := taskStatusCompleted
                              progress := 50, source := none, target := none, result := none
                              createdAt := 0, updatedAt := 9 })]
            connections := [], logs := [] } := by
  refine ⟨by decide, by rfl⟩

/-- C6 amended: the backend defines no cancel operation and no cancelled
status.  Every status a pipeline worker writes is one of the four declared
constants (`pending`/`running`/`completed`/`failed`), and the store's
`UpdateTaskStatus` replaces the current status unconditionally — the final
terminal write overwrites whatever status the record held. -/
theorem task_status_universe (env : String → StepOutcome) (panicMsg : String)
    (steps : List FlowStep)
    (_hflow : steps ∈ [onlineMigrationSteps, dataExportSteps, dataImportSteps]) :
    (∀ st ∈ (runWorker steps env panicMsg).statusWrites, st ∈ taskStatusConstants) ∧
    (∀ (ms : MemoryStore) (taskID status : String) (now : Nat) (task : MigrationTask),
      lookupA ms.tasks taskID = some task →
      ms.updateTaskStatus taskID status now =
        .ok { ms with tasks := insertA ms.tasks taskID { task with
                status := status, updatedAt := now } }) := by
  constructor
  · intro st hst
    simp only [runWorker, List.mem_cons, List.not_mem_nil, or_false] at hst
    rcases hst with h | h
    · simp [h, taskStatusConstants, taskStatusRunning, taskStatusPending]
    · unfold workerFinalStatus at h
      by_cases hp : (runSteps steps env).panicked <;>
        by_cases hc : (runSteps steps env).hasCriticalError <;>
        simp [hp, hc] at h <;>
        simp [h, taskStatusConstants, taskStatusFailed, taskStatusCompleted,
          taskStatusPending, taskStatusRunning]
  · intro ms taskID status now task h
    simp [MemoryStore.updateTaskStatus, h]

/-- Witness for `task_status_universe`: an all-ok data-export run writes
only `running` then `completed`, and a concrete status update overwrites
the stored status field. -/
theorem task_status_universe_witness :
    (∀ st ∈ (runWorker dataExportSteps (fun _ => .ok) "p").statusWrites,
      st ∈ taskStatusConstants) ∧
    MemoryStore.updateTaskStatus
      { tasks := [("t", { id := "t", taskType := "export", status := taskStatusRunning
                          progress := 10, source := none, target := none, result := none
                          createdAt := 0, updatedAt := 1 })]
        connections := [], logs := [] } "t" taskStatusFailed 4 =
      .ok { tasks := [("t", { id := "t", taskType := "export", status := taskStatusFailed
                              progress := 10, source := none, target := none, result := none
                              createdAt := 0, updatedAt := 4 })]
            connections := [], logs := [] } := by
  have h := task_status_universe (fun _ => .ok) "p" dataExportSteps (by simp)
  refine ⟨h.1, ?_⟩
  have h2 := h.2
    { tasks := [("t", { id := "t", taskType := "export", status := taskStatusRunning
                        progress := 10, source := none, target := none, result := none
                        createdAt := 0, updatedAt := 1 })]
      connections := [], logs := [] } "t" taskStatusFailed 4
    { id := "t", taskType := "export", status := taskStatusRunning
      progress := 10, source := none, target := none, result := none
      createdAt := 0, updatedAt := 1 } (by decide)
  rw [h2]
  rfl

/-! ## C7: import-status cache correctness -/

/-- `getCachedImportStatus` never changes the TTL configuration. -/
theorem getCachedImportStatus_ttl (h : HandlerCache) (taskID : String) (now : Nat) :
    ((getCachedImportStatus h taskID now).2).cacheTTL = h.cacheTTL := by
  unfold getCachedImportStatus
  cases lookupA h.importStatusCache taskID with
  | none => rfl
  | some cached =>
    cases lookupA h.cacheExpiry taskID with
    | none => rfl
    | some expiry =>
      by_cases ht : now < expiry <;> simp [ht]

/-- C7: `GetImportStatus` on a `running` task always recomputes the view
from the live task and leaves the cache untouched (never consults, never
populates it); on a non-`running` task whose first call misses the cache,
the first call computes and caches the view and a second call within the
TTL window returns exactly that view, with the cache state unchanged. -/
theorem import_status_cache_correct (h : HandlerCache) (task : MigrationTask)
    (now1 now2 : Nat) :
    (task.status = taskStatusRunning →
      getImportStatus h task now1 = (computeImportView task, h)) ∧
    (task.status ≠ taskStatusRunning →
      (getCachedImportStatus h task.id now1).1 = none →
      now2 < now1 + h.cacheTTL →
      (getImportStatus h task now1).1 = computeImportView task ∧
      getImportStatus (getImportStatus h task now1).2 task now2 =
        ((getImportStatus h task now1).1, (getImportStatus h task now1).2)) := by
  constructor
  · intro hrun
    simp [getImportStatus, hrun]
  · intro hnr hmiss htime
    have httl := getCachedImportStatus_ttl h task.id now1
    rcases hget : getCachedImportStatus h task.id now1 with ⟨o, h1⟩
    rw [hget] at hmiss
    simp only at hmiss
    subst hmiss
    have hfirst : getImportStatus h task now1 =
        (computeImportView task, cacheImportStatus h1 task.id (computeImportView task) now1) := by
      simp [getImportStatus, hnr, hget]
    refine ⟨by simp [hfirst], ?_⟩
    rw [hfirst]
    have h1ttl : h1.cacheTTL = h.cacheTTL := by
      have := httl
      rw [hget] at this
      exact this
    have hhit : getCachedImportStatus
        (cacheImportStatus h1 task.id (computeImportView task) now1) task.id now2 =
        (some (computeImportView task),
          cacheImportStatus h1 task.id (computeImportView task) now1) := by
      have hc : lookupA (cacheImportStatus h1 task.id (computeImportView task) now1).importStatusCache
          task.id = some (computeImportView task) := lookupA_insertA_self _ _ _
      have he : lookupA (cacheImportStatus h1 task.id (computeImportView task) now1).cacheExpiry
          task.id = some (now1 + h1.cacheTTL) := lookupA_insertA_self _ _ _
      have htime1 : now2 < now1 + h1.cacheTTL := by rw [h1ttl]; exact htime
      simp [getCachedImportStatus, hc, he, htime1]
    simp [getImportStatus, hnr, hhit]

/-- Witness for `import_status_cache_correct`: a completed task with an
empty cache; the second call at a later instant inside the TTL window
returns the view cached by the first call, and a running task bypasses
the cache entirely. -/
theorem import_status_cache_correct_witness :
    (getImportStatus { importStatusCache := [], cacheExpiry := [], cacheTTL := 300 }
        { id := "t", taskType := "import", status := taskStatusRunning, progress := 10
          source := none, target := none, result := none, createdAt := 0, updatedAt := 0 } 50 =
      (computeImportView
        { id := "t", taskType := "import", status := taskStatusRunning, progress := 10
          source := none, target := none, result := none, createdAt := 0, updatedAt := 0 },
        { importStatusCache := [], cacheExpiry := [], cacheTTL := 300 })) ∧
    ((getImportStatus { importStatusCache := [], cacheExpiry := [], cacheTTL := 300 }
        { id := "t", taskType := "import", status := taskStatusCompleted, progress := 100
          source := none, target := none, result := none, createdAt := 0, updatedAt := 0 } 50).1 =
      computeImportView
        { id := "t", taskType := "import", status := taskStatusCompleted, progress := 100
          source := none, target := none, result := none, createdAt := 0, updatedAt := 0 } ∧
     getImportStatus
        (getImportStatus { importStatusCache := [], cacheExpiry := [], cacheTTL := 300 }
          { id := "t", taskType := "import", status := taskStatusCompleted, progress := 100
            source := none, target := none, result := none, createdAt := 0, updatedAt := 0 } 50).2
        { id := "t", taskType := "import", status := taskStatusCompleted, progress := 100
          source := none, target := none, result := none, createdAt := 0, updatedAt := 0 } 200 =
      ((getImportStatus { importStatusCache := [], cacheExpiry := [], cacheTTL := 300 }
          { id := "t", taskType := "import", status := taskStatusCompleted, progress := 100
            source := none, target := none, result := none, createdAt := 0, updatedAt := 0 } 50).1,
       (getImportStatus { importStatusCache := [], cacheExpiry := [], cacheTTL := 300 }
          { id := "t", taskType := "import", status := taskStatusCompleted, progress := 100
            source := none, target := none, result := none, createdAt := 0, updatedAt := 0 } 50).2)) := by
  constructor
  · exact (import_status_cache_correct
      { importStatusCache := [], cacheExpiry := [], cacheTTL := 300 }
      { id := "t", taskType := "import", status := taskStatusRunning, progress := 10
        source := none, target := none, result := none, createdAt := 0, updatedAt := 0 }
      50 200).1 rfl
  · exact (import_status_cache_correct
      { importStatusCache := [], cacheExpiry := [], cacheTTL := 300 }
      { id := "t", taskType := "import", status := taskStatusCompleted, progress := 100
        source := none, target := none, result := none, createdAt := 0, updatedAt := 0 }
      50 200).2 (by decide) (by decide) (by decide)

/-! ## C8: hub broadcast backpressure -/

/-- `deliverOne` keeps the client identity. -/
theorem deliverOne_id (msg : WSMessage) (c c' : Client)
    (h : deliverOne msg c = some c') : c'.id = c.id := by
  unfold deliverOne at h
  by_cases hr : c.send.length < c.sendCap
  · rw [if_pos hr] at h
    cases h
    rfl
  · rw [if_neg hr] at h
    cases h

/-- C8: with no subscribed observers the event is silently dropped and
the hub state is unchanged; otherwise every observer with queue room gets
the event enqueued and remains registered, and every observer with a full
queue is handed back closed and (given distinct observer identities) no
longer appears in the task's observer set.  `broadcast` returns no error
to the producer, and delivery to roomy observers is unconditional on the
fate of the others. -/
theorem broadcast_backpressure (m : Manager) (taskID : String) (msg : WSMessage)
    (cs : List Client) :
    (lookupA m.clients taskID = none → broadcast m taskID msg = (m, [])) ∧
    (lookupA m.clients taskID = some [] → broadcast m taskID msg = (m, [])) ∧
    (lookupA m.clients taskID = some cs →
      (∀ c ∈ cs, c.send.length < c.sendCap →
        { c with send := c.send ++ [msg] } ∈
          (lookupA (broadcast m taskID msg).1.clients taskID).getD []) ∧
      (∀ c ∈ cs, ¬ c.send.length < c.sendCap →
        { c with closed := true } ∈ (broadcast m taskID msg).2 ∧
        ((cs.map (·.id)).Nodup →
          ∀ c' ∈ (lookupA (broadcast m taskID msg).1.clients taskID).getD [],
            c'.id ≠ c.id))) := by
  refine ⟨?_, ?_, ?_⟩
  · intro hnone
    simp [broadcast, hnone]
  · intro hempty
    simp [broadcast, hempty]
  · intro hcs
    constructor
    · intro c hc hroom
      have hne : cs.length ≠ 0 := by
        intro h0
        rw [List.length_eq_zero] at h0
        subst h0
        cases hc
      have hdel : deliverOne msg c = some { c with send := c.send ++ [msg] } := by
        simp [deliverOne, hroom]
      have hkept : { c with send := c.send ++ [msg] } ∈ cs.filterMap (deliverOne msg) :=
        List.mem_filterMap.2 ⟨c, hc, hdel⟩
      have hkne : (cs.filterMap (deliverOne msg)).length ≠ 0 := by
        intro h0
        rw [List.length_eq_zero] at h0
        rw [h0] at hkept
        cases hkept
      simp only [broadcast, hcs, if_neg hne, if_neg hkne]
      rw [lookupA_insertA_self]
      exact hkept
    · intro c hc hfull
      have hne : cs.length ≠ 0 := by
        intro h0
        rw [List.length_eq_zero] at h0
        subst h0
        cases hc
      constructor
      · have hmem : c ∈ cs.filter (fun x => !(x.send.length < x.sendCap)) :=
          List.mem_filter.2 ⟨hc, by simp [hfull]⟩
        by_cases hk : (cs.filterMap (deliverOne msg)).length = 0
        · simp only [broadcast, hcs, if_neg hne, if_pos hk]
          exact List.mem_map.2 ⟨c, hmem, rfl⟩
        · simp only [broadcast, hcs, if_neg hne, if_neg hk]
          exact List.mem_map.2 ⟨c, hmem, rfl⟩
      · intro hnodup c' hc'
        by_cases hk : (cs.filterMap (deliverOne msg)).length = 0
        · simp only [broadcast, hcs, if_neg hne, if_pos hk] at hc'
          rw [eraseA_lookupA_self] at hc'
          cases hc'
        · simp only [broadcast, hcs, if_neg hne, if_neg hk] at hc'
          rw [lookupA_insertA_self] at hc'
          simp only [Option.getD_some] at hc'
          obtain ⟨b, hb, hdel⟩ := List.mem_filterMap.1 hc'
          intro hid
          have hbid : b.id = c.id := (deliverOne_id msg b c' hdel) ▸ hid
          have hbc : b = c :=
            List.inj_on_of_nodup_map hnodup hb hc hbid
          subst hbc
          unfold deliverOne at hdel
          rw [if_neg hfull] at hdel
          cases hdel

/-- Witness for `broadcast_backpressure`: a task with one full observer
and one with room — the roomy one receives the event, the full one is
dropped closed. -/
theorem broadcast_backpressure_witness :
    ({ (⟨1, [], 1, false⟩ : Client) with send := [⟨"task_log", 7⟩] } ∈
      (lookupA (broadcast
        { clients := [("t", [⟨1, [], 1, false⟩, ⟨2, [⟨"step", 3⟩], 1, false⟩])] }
        "t" ⟨"task_log", 7⟩).1.clients "t").getD []) ∧
    ({ (⟨2, [⟨"step", 3⟩], 1, false⟩ : Client) with closed := true } ∈
      (broadcast { clients := [("t", [⟨1, [], 1, false⟩, ⟨2, [⟨"step", 3⟩], 1, false⟩])] }
        "t" ⟨"task_log", 7⟩).2) := by
  have h := (broadcast_backpressure
    { clients := [("t", [⟨1, [], 1, false⟩, ⟨2, [⟨"step", 3⟩], 1, false⟩])] }
    "t" ⟨"task_log", 7⟩
    [⟨1, [], 1, false⟩, ⟨2, [⟨"step", 3⟩], 1, false⟩]).2.2 (by decide)
  exact ⟨h.1 ⟨1, [], 1, false⟩ (by decide) (by decide),
    (h.2 ⟨2, [⟨"step", 3⟩], 1, false⟩ (by decide) (by decide)).1⟩

/-! ## C9: double delete -/

/-- C9 counterexample: after a first successful delete of task `"t"`, a
second `MemoryStore.DeleteTask` on the same id returns `ErrTaskNotFound`
— an error — and the HTTP handler answers 404; the claim that the second
call "does not return an error" is false.  (The maps are indeed left
unchanged.) -/
theorem delete_twice_errors_counterexample :
    MemoryStore.deleteTask
      { tasks := [("t", { id := "t", taskType := "import", status := taskStatusCompleted
                          progress := 100, source := none, target := none, result := none
                          createdAt := 0, updatedAt := 2 })]
        connections := []
        logs := [("t", [{ level := logLevelInfo, message := "Step started", timestamp := 1 }])] }
      "t" = .ok { tasks := [], connections := [], logs := [] } ∧
    MemoryStore.deleteTask { tasks := [], connections := [], logs := [] } "t" =
      .error .taskNotFound ∧
    handlerDeleteTask { tasks := [], connections := [], logs := [] } "t" =
      (.notFound, { tasks := [], connections := [], logs := [] }) := by
  refine ⟨by rfl, by rfl, by rfl⟩

/-- C9 amended: a second delete of an already-deleted task id returns a
task-not-found error (the handler responds 404), but it does not corrupt
the store: the task and log maps are exactly those left by the first
delete, which removed the task and its logs. -/
theorem delete_twice_safe (ms ms' : MemoryStore) (taskID : String)
    (h : ms.deleteTask taskID = .ok ms') :
    ms'.tasks = eraseA ms.tasks taskID ∧
    ms'.logs = eraseA ms.logs taskID ∧
    ms'.deleteTask taskID = .error .taskNotFound ∧
    handlerDeleteTask ms' taskID = (.notFound, ms') := by
  unfold MemoryStore.deleteTask at h
  rcases hl : lookupA ms.tasks taskID with _ | task
  · rw [hl] at h
    cases h
  · rw [hl] at h
    simp only [Except.ok.injEq] at h
    subst h
    have hgone : lookupA (eraseA ms.tasks taskID) taskID = none :=
      eraseA_lookupA_self ms.tasks taskID
    refine ⟨rfl, rfl, ?_, ?_⟩
    · simp [MemoryStore.deleteTask, hgone]
    · simp [handlerDeleteTask, MemoryStore.getTask, hgone]

/-- Witness for `delete_twice_safe` at a concrete two-task store. -/
theorem delete_twice_safe_witness :
    MemoryStore.deleteTask
      { tasks := [("a", { id := "a", taskType := "export", status := taskStatusFailed
                          progress := 30, source := none, target := none, result := none
                          createdAt := 0, updatedAt := 2 })]
        connections := [], logs := [] } "a" = .error .taskNotFound ∨
    ((MemoryStore.deleteTask
        { tasks := [("a", { id := "a", taskType := "export", status := taskStatusFailed
                            progress := 30, source := none, target := none, result := none
                            createdAt := 0, updatedAt := 2 })]
          connections := [], logs := [] } "a" =
        .ok { tasks := [], connections := [], logs := [] }) ∧
      MemoryStore.deleteTask { tasks := [], connections := [], logs := [] } "a" =
        .error .taskNotFound ∧
      handlerDeleteTask { tasks := [], connections := [], logs := [] } "a" =
        (.notFound, { tasks := [], connections := [], logs := [] })) := by
  refine Or.inr ⟨by rfl, ?_, ?_⟩
  · exact (delete_twice_safe
      { tasks := [("a", { id := "a", taskType := "export", status := taskStatusFailed
                          progress := 30, source := none, target := none, result := none
                          createdAt := 0, updatedAt := 2 })]
        connections := [], logs := [] }
      { tasks := [], connections := [], logs := [] } "a" (by rfl)).2.2.1
  · exact (delete_twice_safe
      { tasks := [("a", { id := "a", taskType := "export", status := taskStatusFailed
                          progress := 30, source := none, target := none, result := none
                          createdAt := 0, updatedAt := 2 })]
        connections := [], logs := [] }
      { tasks := [], connections := [], logs := [] } "a" (by rfl)).2.2.2

/-! ## C10: secret scrubbing in the status response -/

/-- C10: the single-task status response carries copies of the connection
records with `Password` and `Token` blanked (all other connection fields
and the rest of the task are intact), while the store — and in it the
stored task with its original connections — is left unchanged. -/
theorem get_task_status_scrubs (ms : MemoryStore) (taskID : String)
    (task : MigrationTask) (h : lookupA ms.tasks taskID = some task) :
    (handlerGetTaskStatus ms taskID).1 =
      some { task with source := task.source.map scrubConnection
                       target := task.target.map scrubConnection } ∧
    (∀ c, (handlerGetTaskStatus ms taskID).1.bind (·.source) = some c →
      c.password = "" ∧ c.token = "") ∧
    (∀ c, (handlerGetTaskStatus ms taskID).1.bind (·.target) = some c →
      c.password = "" ∧ c.token = "") ∧
    (∀ c, (scrubConnection c).host = c.host ∧ (scrubConnection c).port = c.port ∧
      (scrubConnection c).username = c.username ∧ (scrubConnection c).id = c.id ∧
      (scrubConnection c).sysType = c.sysType ∧ (scrubConnection c).verified = c.verified) ∧
    (handlerGetTaskStatus ms taskID).2 = ms ∧
    lookupA ((handlerGetTaskStatus ms taskID).2).tasks taskID = some task := by
  have hresp : handlerGetTaskStatus ms taskID =
      (some { task with source := task.source.map scrubConnection
                        target := task.target.map scrubConnection }, ms) := by
    simp [handlerGetTaskStatus, MemoryStore.getTask, h]
  refine ⟨by rw [hresp], ?_, ?_, ?_, by rw [hresp], by rw [hresp]; exact h⟩
  · intro c hc
    rw [hresp] at hc
    simp only [Option.some_bind] at hc
    cases hsrc : task.source with
    | none => rw [hsrc] at hc; cases hc
    | some src =>
      rw [hsrc] at hc
      have hsc : scrubConnection src = c := by simpa using hc
      rw [← hsc]
      exact ⟨rfl, rfl⟩
  · intro c hc
    rw [hresp] at hc
    simp only [Option.some_bind] at hc
    cases htgt : task.target with
    | none => rw [htgt] at hc; cases hc
    | some tgt =>
      rw [htgt] at hc
      have hsc : scrubConnection tgt = c := by simpa using hc
      rw [← hsc]
      exact ⟨rfl, rfl⟩
  · intro c
    exact ⟨rfl, rfl, rfl, rfl, rfl, rfl⟩

/-- Witness for `get_task_status_scrubs`: a concrete task whose source
connection holds a password and a token; the response blanks both and the
store still holds the originals. -/
theorem get_task_status_scrubs_witness :
    (handlerGetTaskStatus
      { tasks := [("t", { id := "t", taskType := "online", status := taskStatusCompleted
                          progress := 100
                          source := some { id := "c1", host := "10.0.0.2", port := 80
                                           username := "admin", password := "hunter2"
                                           token := "tok123", sysType := "casaos"
                                           verified := true }
                          target := none, result := none, createdAt := 0, updatedAt := 5 })]
        connections := [], logs := [] } "t").1 =
      some { id := "t", taskType := "online", status := taskStatusCompleted
             progress := 100
             source := some { id := "c1", host := "10.0.0.2", port := 80
                              username := "admin", password := "", token := ""
                              sysType := "casaos", verified := true }
             target := none, result := none, createdAt := 0, updatedAt := 5 } ∧
    lookupA ((handlerGetTaskStatus
      { tasks := [("t", { id := "t", taskType := "online", status := taskStatusCompleted
                          progress := 100
                          source := some { id := "c1", host := "10.0.0.2", port := 80
                                           username := "admin", password := "hunter2"
                                           token := "tok123", sysType := "casaos"
                                           verified := true }
                          target := none, result := none, createdAt := 0, updatedAt := 5 })]
        connections := [], logs := [] } "t").2).tasks "t" =
      some { id := "t", taskType := "online", status := taskStatusCompleted
             progress := 100
             source := some { id := "c1", host := "10.0.0.2", port := 80
                              username := "admin", password := "hunter2"
                              token := "tok123", sysType := "casaos", verified := true }
             target := none, result := none, createdAt := 0, updatedAt := 5 } := by
  have h := get_task_status_scrubs
    { tasks := [("t", { id := "t", taskType := "online", status := taskStatusCompleted
                        progress := 100
                        source := some { id := "c1", host := "10.0.0.2", port := 80
                                         username := "admin", password := "hunter2"
                                         token := "tok123", sysType := "casaos"
                                         verified := true }
                        target := none, result := none, createdAt := 0, updatedAt := 5 })]
      connections := [], logs := [] } "t"
    { id := "t", taskType := "online", status := taskStatusCompleted
      progress := 100
      source := some { id := "c1", host := "10.0.0.2", port := 80
                       username := "admin", password := "hunter2"
                       token := "tok123", sysType := "casaos", verified := true }
      target := none, result := none, createdAt := 0, updatedAt := 5 } (by rfl)
  exact ⟨h.1.trans (by rfl), h.2.2.2.2.2⟩

end Ctoz
